import Mathlib

/-!
Shallow embedding of the SIH terminology-search front-end (React/JS) and
verification of its specification claims.

Conventions used throughout:
- JavaScript values that may be `null`/`undefined` are modelled as `Option`.
- A raw HTTP request outcome is `Except String α`: `.error` models a network
  failure or a non-ok HTTP status (the rejected-promise path), `.ok` the parsed
  JSON body.  The oracle stands for the response to the URL the code builds.
- `Array.prototype.slice(a, b)` is modelled as `(List.drop a) ∘ (List.take (b - a))`.
- Numeric scores are modelled as `ℚ` (their exact values never matter to the
  claims; only JavaScript truthiness of `0` does).
- JavaScript `x || y` on strings/numbers/objects is modelled by the `jsOr*`
  helpers, which treat `none`, `""` and `0` as falsy exactly as JS does.
-/

namespace SIH

/-! ## Data model -/

/-- A search-result record as used by the detail view: only `english_name` and
`title` are inspected by the name-matching logic (`MappingDetailsPage.js`). -/
structure Term where
  english_name : Option String
  title : Option String
  code : Option String
  deriving Repr, DecidableEq

/-- JavaScript `a || b` for an optional string: `null`/`undefined` and `""` are falsy. -/
def jsOrStr (a : Option String) (b : String) : String :=
  match a with
  | some s => if s = "" then b else s
  | none => b

/-- JavaScript `a || b` for an optional number: `null`/`undefined` and `0` are falsy. -/
def jsOrNum (a : Option ℚ) (b : ℚ) : ℚ :=
  match a with
  | some x => if x = 0 then b else x
  | none => b

/-! ## Detail-view best-match selection (`MappingDetailsPage.js` `findBestMatch`) -/

/-- JavaScript `s.toLowerCase()`, written so that it reduces in the kernel
(`String.toLower` itself is defined by well-founded recursion). -/
def jsToLower (s : String) : String := ⟨s.data.map Char.toLower⟩

/-- JavaScript `s.trim()`, written so that it reduces in the kernel
(`String.trim` itself is defined via `Substring` position recursion). -/
def jsTrim (s : String) : String :=
  ⟨((s.data.dropWhile Char.isWhitespace).reverse.dropWhile Char.isWhitespace).reverse⟩

/-- JavaScript `s.includes(sub)`: `sub` occurs contiguously inside `s`. -/
def strIncludes (s sub : String) : Bool :=
  (List.range (s.length + 1)).any fun i =>
    ((s.toList.drop i).take sub.length) == sub.toList

/-- The display name used by `findBestMatch`:
`(result.english_name || result.title || '')`. -/
def resultName (r : Term) : String :=
  jsOrStr r.english_name (jsOrStr r.title "")

/-- From `MappingDetailsPage.js` `findBestMatch`: exact case-insensitive name
match first, else substring containment in either direction, else the first
result; `null` when the result list is empty. -/
def findBestMatch (results : List Term) (termName : String) : Option Term :=
  if results.length = 0 then none
  else
    let termNameLower := jsToLower termName
    match results.find? (fun r => jsToLower (resultName r) == termNameLower) with
    | some m => some m
    | none =>
      match results.find? (fun r =>
          strIncludes (jsToLower (resultName r)) termNameLower
            || strIncludes termNameLower (jsToLower (resultName r))) with
      | some m => some m
      | none => results.head?

/-- C2. Whenever some result's display name (`english_name`, falling back to
`title`) equals the requested term name case-insensitively, `findBestMatch`
returns a result with exactly that property — even when the matching result is
not the first element of the list. -/
theorem findBestMatch_returns_exact_match (results : List Term) (termName : String)
    (h : ∃ r ∈ results, jsToLower (resultName r) = jsToLower termName) :
    ∃ m, findBestMatch results termName = some m ∧
      jsToLower (resultName m) = jsToLower termName := by
  have hne : results.length ≠ 0 := by
    obtain ⟨r, hr, _⟩ := h
    intro h0
    rw [List.length_eq_zero] at h0
    subst h0
    simp at hr
  have hsome : (results.find? (fun r => jsToLower (resultName r) == jsToLower termName)).isSome := by
    refine List.find?_isSome.2 ?_
    obtain ⟨r, hr, hname⟩ := h
    exact ⟨r, hr, by simpa using hname⟩
  obtain ⟨m, hm⟩ := Option.isSome_iff_exists.1 hsome
  refine ⟨m, ?_, ?_⟩
  · rw [findBestMatch, if_neg hne]
    simp only [hm]
  · have := List.find?_some hm
    simpa using this

/-- Witness for `findBestMatch_returns_exact_match`: the exact match is the
second element and `findBestMatch` picks it. -/
theorem findBestMatch_returns_exact_match_witness :
    (∃ r ∈ [Term.mk (some "Cholera") none none, Term.mk (some "Fever") none none],
        jsToLower (resultName r) = jsToLower "FEVER") ∧
    ∃ m, findBestMatch [Term.mk (some "Cholera") none none, Term.mk (some "Fever") none none]
        "FEVER" = some m ∧ jsToLower (resultName m) = jsToLower "FEVER" := by
  have h : ∃ r ∈ [Term.mk (some "Cholera") none none, Term.mk (some "Fever") none none],
      jsToLower (resultName r) = jsToLower "FEVER" := by
    refine ⟨Term.mk (some "Fever") none none, by simp, by decide⟩
  exact ⟨h, findBestMatch_returns_exact_match _ _ h⟩

/-! ## Pagination helpers

`MappingDetailsPage.js` (`getCurrentPageData`/`getTotalPages`),
`SystemResultsPage.jsx` (`pageData`/`totalPages`) and the system page
(`currentResults`/`totalPages`) each slice an in-memory result array. -/

/-- From `MappingDetailsPage.js` `getCurrentPageData`:
`if (!data?.results?.length) return []; return data.results.slice(startIndex, startIndex + itemsPerPage)`
with `startIndex = (currentPage - 1) * itemsPerPage`. -/
def getCurrentPageData (results : List α) (currentPage itemsPerPage : Nat) : List α :=
  if results.length = 0 then []
  else (results.drop ((currentPage - 1) * itemsPerPage)).take itemsPerPage

/-- From `MappingDetailsPage.js` `getTotalPages`:
`if (!data?.results?.length) return 0; return Math.ceil(data.results.length / itemsPerPage)`.
For natural `P > 0`, `Math.ceil(n / P) = (n + P - 1) / P` in truncating division. -/
def getTotalPages (results : List α) (itemsPerPage : Nat) : Nat :=
  if results.length = 0 then 0
  else (results.length + itemsPerPage - 1) / itemsPerPage

/-- From `SystemResultsPage.jsx` `pageData`:
`if (!data?.results?.length) return []; return data.results.slice(start, start + itemsPerPage)`. -/
def pageData (results : List α) (currentPage itemsPerPage : Nat) : List α :=
  if results.length = 0 then []
  else (results.drop ((currentPage - 1) * itemsPerPage)).take itemsPerPage

/-- From `SystemResultsPage.jsx` `totalPages` (same formula, same guard). -/
def srpTotalPages (results : List α) (itemsPerPage : Nat) : Nat :=
  if results.length = 0 then 0
  else (results.length + itemsPerPage - 1) / itemsPerPage

/-- From the system page: `results.slice((currentPage - 1) * resultsPerPage, currentPage * resultsPerPage)`
(no empty guard). -/
def currentResults (results : List α) (currentPage resultsPerPage : Nat) : List α :=
  (results.drop ((currentPage - 1) * resultsPerPage)).take
    (currentPage * resultsPerPage - (currentPage - 1) * resultsPerPage)

/-- From the system page: `Math.ceil(results.length / resultsPerPage)` (no guard). -/
def systemPageTotalPages (results : List α) (resultsPerPage : Nat) : Nat :=
  (results.length + resultsPerPage - 1) / resultsPerPage

/-! ## Combined-search response shape and the reshaped mapping record
(`SearchPage.js` `performSearch`, phase 1) -/

/-- A `related_ayurveda`/`related_siddha`/`related_unani` sub-object of a
combined-search response item. -/
structure RelatedTerm where
  code : Option String
  english_name : Option String
  local_name : Option String
  deriving Repr, DecidableEq

/-- The `mapping_info` sub-object of a combined-search response item. -/
structure MappingInfo where
  confidence_score : Option ℚ
  deriving Repr, DecidableEq

/-- One item of a combined-search response (`/terminologies/search/combined/`). -/
structure CombinedItem where
  id : Option String
  code : Option String
  title : Option String
  definition : Option String
  class_kind : Option String
  foundation_uri : Option String
  related_ayurveda : Option RelatedTerm
  related_siddha : Option RelatedTerm
  related_unani : Option RelatedTerm
  mapping_info : Option MappingInfo
  search_score : Option ℚ
  deriving Repr, DecidableEq

/-- The `source_term` slot of a reshaped mapping record. -/
structure SourceTerm where
  code : Option String
  english_name : Option String
  hindi_name : Option String
  deriving Repr, DecidableEq

/-- One traditional-medicine slot of the reshaped mapping record
(`{ code, english_name, local_name }`). -/
structure NamasteSlot where
  code : Option String
  english_name : Option String
  local_name : Option String
  deriving Repr, DecidableEq

/-- The `namaste_terms` slots of a reshaped mapping record. -/
structure NamasteTerms where
  ayurveda : Option NamasteSlot
  siddha : Option NamasteSlot
  unani : Option NamasteSlot
  deriving Repr, DecidableEq

/-- The `icd_mapping` slot of a reshaped mapping record. -/
structure IcdMapping where
  code : Option String
  title : Option String
  definition : Option String
  class_kind : Option String
  foundation_uri : Option String
  deriving Repr, DecidableEq

/-- A reshaped mapping record as produced by `performSearch` from one combined item. -/
structure MappingRecord where
  mapping_id : Option String
  source_term : SourceTerm
  namaste_terms : NamasteTerms
  icd_mapping : IcdMapping
  confidence_score : ℚ
  search_score : Option ℚ
  deriving Repr, DecidableEq

/-- From `SearchPage.js` `performSearch`: the per-item reshaping applied to
`combinedData.results`.  `item.related_X ? {...} : null` is `Option.map` (an
object is always truthy); `item.mapping_info?.confidence_score || item.search_score || 0.7`
is the `jsOrNum` chain. -/
def toMappingRecord (item : CombinedItem) : MappingRecord where
  mapping_id := item.id
  source_term := { code := item.code, english_name := item.title, hindi_name := none }
  namaste_terms :=
    { ayurveda := item.related_ayurveda.map fun r =>
        { code := r.code, english_name := r.english_name, local_name := r.local_name }
      siddha := item.related_siddha.map fun r =>
        { code := r.code, english_name := r.english_name, local_name := r.local_name }
      unani := item.related_unani.map fun r =>
        { code := r.code, english_name := r.english_name, local_name := r.local_name } }
  icd_mapping :=
    { code := item.code, title := item.title, definition := item.definition
      class_kind := item.class_kind, foundation_uri := item.foundation_uri }
  confidence_score :=
    jsOrNum (item.mapping_info.bind MappingInfo.confidence_score)
      (jsOrNum item.search_score (7 / 10))
  search_score := item.search_score

/-- C3. For every combined-search item, the reshaped mapping record has `null`
in a system's `namaste_terms` slot exactly when that system's `related_*` field
is absent, and otherwise carries that system's `code`, `english_name` and
`local_name`. -/
theorem namaste_slots_follow_related_fields (item : CombinedItem) :
    ((toMappingRecord item).namaste_terms.ayurveda = none ↔ item.related_ayurveda = none) ∧
    (∀ r, item.related_ayurveda = some r → (toMappingRecord item).namaste_terms.ayurveda
      = some { code := r.code, english_name := r.english_name, local_name := r.local_name }) ∧
    ((toMappingRecord item).namaste_terms.siddha = none ↔ item.related_siddha = none) ∧
    (∀ r, item.related_siddha = some r → (toMappingRecord item).namaste_terms.siddha
      = some { code := r.code, english_name := r.english_name, local_name := r.local_name }) ∧
    ((toMappingRecord item).namaste_terms.unani = none ↔ item.related_unani = none) ∧
    (∀ r, item.related_unani = some r → (toMappingRecord item).namaste_terms.unani
      = some { code := r.code, english_name := r.english_name, local_name := r.local_name }) := by
  refine ⟨?_, ?_, ?_, ?_, ?_, ?_⟩ <;>
    simp [toMappingRecord, Option.map_eq_none'] <;>
    exact fun r hr => ⟨r, hr, rfl, rfl, rfl⟩

/-- A concrete combined item used by witnesses: `related_ayurveda` present,
`related_siddha` and `related_unani` absent. -/
def sampleCombinedItem : CombinedItem where
  id := some "17"
  code := some "1A00"
  title := some "Cholera"
  definition := some "An acute diarrhoeal infection"
  class_kind := some "category"
  foundation_uri := none
  related_ayurveda := some { code := some "AYU-1", english_name := some "Visuchika"
                             local_name := some "विसूचिका" }
  related_siddha := none
  related_unani := none
  mapping_info := some { confidence_score := some (9 / 10) }
  search_score := some (4 / 5)

/-- Witness for `namaste_slots_follow_related_fields` at `sampleCombinedItem`:
the present `related_ayurveda` is carried over and the absent `related_siddha`
yields a `null` slot. -/
theorem namaste_slots_follow_related_fields_witness :
    (toMappingRecord sampleCombinedItem).namaste_terms.ayurveda
      = some { code := some "AYU-1", english_name := some "Visuchika"
               local_name := some "विसूचिका" } ∧
    (toMappingRecord sampleCombinedItem).namaste_terms.siddha = none := by
  have h := namaste_slots_follow_related_fields sampleCombinedItem
  refine ⟨h.2.1 _ rfl, h.2.2.1.2 rfl⟩

/-- Truncating `(n + p - 1) / p` computes the rational ceiling of `n / p`. -/
theorem ceil_div_eq_add_pred_div (n p : Nat) (hp : 0 < p) :
    ⌈(n : ℚ) / (p : ℚ)⌉₊ = (n + p - 1) / p := by
  set q := (n + p - 1) / p with hq
  have hppos : (0 : ℚ) < (p : ℚ) := by exact_mod_cast hp
  have hub : n + p - 1 < (q + 1) * p := by
    rw [hq]
    exact (Nat.div_lt_iff_lt_mul hp).1 (Nat.lt_succ_self _)
  have hlb : q * p ≤ n + p - 1 := by
    rw [hq]
    exact Nat.div_mul_le_self _ _
  have hn_le : n ≤ q * p := by
    have := hub
    rw [add_mul, one_mul] at this
    omega
  rcases Nat.eq_zero_or_pos n with hn0 | hnpos
  · subst hn0
    have : q = 0 := by
      rw [hq]
      exact Nat.div_eq_of_lt (by omega)
    simp [this]
  · apply le_antisymm
    · rw [Nat.ceil_le, div_le_iff₀ hppos]
      exact_mod_cast hn_le
    · have hq1 : 1 ≤ q := by
        rw [hq]
        exact (Nat.le_div_iff_mul_le hp).2 (by omega)
      have hlt : (q - 1) * p < n := by
        have hsub : (q - 1) * p = q * p - p := by
          rw [Nat.sub_mul, one_mul]
        omega
      have : ((q - 1 : Nat) : ℚ) < (n : ℚ) / (p : ℚ) := by
        rw [lt_div_iff₀ hppos]
        exact_mod_cast hlt
      have := Nat.lt_ceil.2 this
      omega

/-- C1. For every in-memory result array of length `N` and page size `P > 0`, each
of the three client-side pagination helpers reports `⌈N / P⌉` total pages, and for
every page number `k` with `1 ≤ k ≤ ⌈N / P⌉` the slice returned for page `k`
contains exactly `min P (N - (k-1)·P)` items, in all three components
(`MappingDetailsPage.js`, `SystemResultsPage.jsx`, the system page). -/
theorem pagination_pages_and_slice_sizes (results : List α) (P k : Nat)
    (hP : 0 < P) (hk1 : 1 ≤ k) (hk2 : k ≤ getTotalPages results P) :
    getTotalPages results P = ⌈(results.length : ℚ) / (P : ℚ)⌉₊ ∧
    srpTotalPages results P = ⌈(results.length : ℚ) / (P : ℚ)⌉₊ ∧
    systemPageTotalPages results P = ⌈(results.length : ℚ) / (P : ℚ)⌉₊ ∧
    (getCurrentPageData results k P).length = min P (results.length - (k - 1) * P) ∧
    (pageData results k P).length = min P (results.length - (k - 1) * P) ∧
    (currentResults results k P).length = min P (results.length - (k - 1) * P) := by
  have hceil := ceil_div_eq_add_pred_div results.length P hP
  have hne : results.length ≠ 0 := by
    intro h0
    rw [getTotalPages, if_pos h0] at hk2
    omega
  have hslice : ((results.drop ((k - 1) * P)).take P).length
      = min P (results.length - (k - 1) * P) := by
    rw [List.length_take, List.length_drop]
  refine ⟨?_, ?_, ?_, ?_, ?_, ?_⟩
  · rw [getTotalPages, if_neg hne, hceil]
  · rw [srpTotalPages, if_neg hne, hceil]
  · rw [systemPageTotalPages, hceil]
  · rw [getCurrentPageData, if_neg hne, hslice]
  · rw [pageData, if_neg hne, hslice]
  · rw [currentResults]
    have hsub1 : (k - 1) * P = k * P - P := by rw [Nat.sub_one_mul]
    have hle : P ≤ k * P := by
      calc P = 1 * P := (one_mul P).symm
        _ ≤ k * P := Nat.mul_le_mul_right P hk1
    have hwidth : k * P - (k - 1) * P = P := by
      rw [hsub1]
      omega
    rw [hwidth, hslice]

/-- Witness for `pagination_pages_and_slice_sizes`: a 7-element list with page
size 3 has `⌈7/3⌉ = 3` pages and page 3 holds `min 3 (7 - 6) = 1` item. -/
theorem pagination_pages_and_slice_sizes_witness :
    (0 < 3 ∧ 1 ≤ 3 ∧ 3 ≤ getTotalPages [10, 20, 30, 40, 50, 60, 70] 3) ∧
    getTotalPages [10, 20, 30, 40, 50, 60, 70] 3 = ⌈(7 : ℚ) / (3 : ℚ)⌉₊ ∧
    (getCurrentPageData [10, 20, 30, 40, 50, 60, 70] 3 3).length = 1 := by
  have h1 : (0 : Nat) < 3 := by decide
  have h2 : (1 : Nat) ≤ 3 := by decide
  have h3 : (3 : Nat) ≤ getTotalPages [10, 20, 30, 40, 50, 60, 70] 3 := by decide
  have h := pagination_pages_and_slice_sizes (α := Nat) [10, 20, 30, 40, 50, 60, 70] 3 3 h1 h2 h3
  refine ⟨⟨h1, h2, h3⟩, ?_, ?_⟩
  · have := h.1
    simpa using this
  · have := h.2.2.2.1
    simpa using this

/-! ## Network layer and per-component failure handling

`fetchData` appears with identical semantics in `SearchPage.js`, the system
page, and `MappingDetailsPage.js`: it catches every rejection / non-ok status
and returns `null`. -/

/-- Outcome of a raw HTTP request: `.error` is a network failure or non-ok status. -/
abbrev Net (α : Type) := Except String α

/-- A paginated list-endpoint JSON body `{ results, count, next, previous }`;
absent fields are `none`. -/
structure ListResp (α : Type) where
  results : List α
  count : Option Nat
  next : Option String
  previous : Option String
  deriving Repr, DecidableEq

/-- The shared `fetchData` helper (`SearchPage.js` lines 8–20, and its twins):
`try { ... return data } catch { return null }`. -/
def fetchData (net : Net α) : Option α :=
  match net with
  | .ok d => some d
  | .error _ => none

/-- The normalized value returned by `MappingDetailsPage.js` `fetchPaginatedData`
(`count` is always a number there, via `data.count || 0`). -/
structure PageResp (α : Type) where
  results : List α
  count : Nat
  next : Option String
  previous : Option String
  deriving Repr, DecidableEq

/-- JavaScript `a || b` for an optional natural number (`data.count || 0`). -/
def jsOrNat (a : Option Nat) (b : Nat) : Nat :=
  match a with
  | some x => if x = 0 then b else x
  | none => b

/-- From `MappingDetailsPage.js` `fetchPaginatedData`: on a successful fetch the
fields are copied (`data.results || []`, `data.count || 0`), otherwise
`{ results: [], count: 0, next: null, previous: null }` is returned.  The URL
construction is elided: `net` is the outcome for the constructed URL. -/
def fetchPaginatedData (net : Net (ListResp α)) : PageResp α :=
  match fetchData net with
  | some d =>
      { results := d.results, count := jsOrNat d.count 0
        next := d.next, previous := d.previous }
  | none => { results := [], count := 0, next := none, previous := none }

/-- From `SystemResultsPage.jsx`, the data-fetch effect: `setData(json)` on
success, `setData({ results: [], count: 0 })` in the `catch`. -/
def srpFetchedData (net : Net (ListResp Term)) : ListResp Term :=
  match net with
  | .ok json => json
  | .error _ => { results := [], count := some 0, next := none, previous := none }

/-- From the system page `handleSearch`: `fetchData` yields `null` on failure and
the handler then stores `[]` in `results` (the `data && data.results` chain). -/
def systemPageSearchResults (net : Net (ListResp Term)) : List Term :=
  match fetchData net with
  | some d => d.results
  | none => []

/-! ## The search orchestrator (`SearchPage.js` `performSearch`) -/

/-- The five request outcomes `performSearch` consumes, one per endpoint. -/
structure SearchNet where
  combined : Net (ListResp CombinedItem)
  icd11 : Net (ListResp Term)
  ayurveda : Net (ListResp Term)
  unani : Net (ListResp Term)
  siddha : Net (ListResp Term)

/-- The `results` state of `SearchPage.js` once every in-flight request of one
`performSearch` run has resolved. -/
structure SearchResults where
  combined : ListResp CombinedItem
  ayurveda : ListResp Term
  unani : ListResp Term
  siddha : ListResp Term
  icd11 : ListResp Term
  mappingResults : List MappingRecord
  deriving Repr, DecidableEq

/-- The literal `{ results: [] }` stored when a source's fetch returns `null`
(`xData || { results: [] }`): note it has no `count` field. -/
def bareEmptyResp : ListResp α :=
  { results := [], count := none, next := none, previous := none }

/-- From `SearchPage.js` `performSearch`: the guard
`if (!term || !term.trim()) return;` leaves the previous state; otherwise the
combined request is issued first and reshaped into `mappingResults`
(`combinedData?.results ? combinedData.results.map(...) : []`), then the ICD-11
and the three traditional-system requests fill their own slots independently
(`xData || { results: [] }`).  Every fetch goes through `fetchData`, which never
throws, and the function is total: no exception escapes. -/
def performSearch (term : String) (net : SearchNet) (prev : Option SearchResults) :
    Option SearchResults :=
  if jsTrim term = "" then prev
  else
    let combinedData := fetchData net.combined
    let mappingResults :=
      match combinedData with
      | some d => d.results.map toMappingRecord
      | none => []
    some
      { combined := combinedData.getD bareEmptyResp
        icd11 := (fetchData net.icd11).getD bareEmptyResp
        ayurveda := (fetchData net.ayurveda).getD bareEmptyResp
        unani := (fetchData net.unani).getD bareEmptyResp
        siddha := (fetchData net.siddha).getD bareEmptyResp
        mappingResults := mappingResults }

/-- C7. When the combined-search request fails, the run still completes
normally (`performSearch` is total and returns a final state — no exception
escapes), `mappingResults` is the empty sequence, and every per-system slot
still equals the outcome of its own request, so the combined failure aborts
none of the other requests. -/
theorem combined_failure_empties_mappingResults (term : String) (net : SearchNet)
    (prev : Option SearchResults) (e : String)
    (hterm : jsTrim term ≠ "") (hc : net.combined = .error e) :
    ∃ r, performSearch term net prev = some r ∧
      r.mappingResults = [] ∧
      r.combined = bareEmptyResp ∧
      r.icd11 = (fetchData net.icd11).getD bareEmptyResp ∧
      r.ayurveda = (fetchData net.ayurveda).getD bareEmptyResp ∧
      r.unani = (fetchData net.unani).getD bareEmptyResp ∧
      r.siddha = (fetchData net.siddha).getD bareEmptyResp := by
  unfold performSearch
  rw [if_neg hterm, hc]
  exact ⟨_, rfl, rfl, rfl, rfl, rfl, rfl, rfl⟩

/-- A network where only the combined endpoint fails. -/
def combinedFailNet : SearchNet where
  combined := .error "network error"
  icd11 := .ok { results := [Term.mk (some "Fever") none (some "MG26")]
                 count := some 1, next := none, previous := none }
  ayurveda := .ok { results := [], count := some 0, next := none, previous := none }
  unani := .ok { results := [], count := some 0, next := none, previous := none }
  siddha := .ok { results := [], count := some 0, next := none, previous := none }

/-- Witness for `combined_failure_empties_mappingResults`: with the combined
endpoint down and the ICD-11 endpoint healthy, `mappingResults` is empty while
the ICD-11 slot still receives its one result. -/
theorem combined_failure_empties_mappingResults_witness :
    ∃ r, performSearch "fever" combinedFailNet none = some r ∧
      r.mappingResults = [] ∧
      r.combined = bareEmptyResp ∧
      r.icd11 = (fetchData combinedFailNet.icd11).getD bareEmptyResp ∧
      r.ayurveda = (fetchData combinedFailNet.ayurveda).getD bareEmptyResp ∧
      r.unani = (fetchData combinedFailNet.unani).getD bareEmptyResp ∧
      r.siddha = (fetchData combinedFailNet.siddha).getD bareEmptyResp := by
  exact combined_failure_empties_mappingResults "fever" combinedFailNet none
    "network error" (by decide) rfl

/-- The empty list-endpoint value named by the spec: `{ results: [], count: 0 }`. -/
def emptyCountedResp : ListResp α :=
  { results := [], count := some 0, next := none, previous := none }

/-- C4 counterexample. In `SearchPage.js` the shared `fetchData` helper hands its
caller `null` on a network failure, and `performSearch` then stores the literal
`{ results: [] }` — which is not the claimed `{ results: [], count: 0 }` — so not
every fetching component converts a list-endpoint failure to `{ results: [], count: 0 }`. -/
theorem list_failure_value_counterexample :
    fetchData (α := ListResp Term) (.error "network error") = none ∧
    (performSearch "fever" combinedFailNet none).map SearchResults.combined
      = some bareEmptyResp ∧
    (bareEmptyResp : ListResp CombinedItem) ≠ emptyCountedResp := by
  refine ⟨rfl, rfl, ?_⟩
  decide

/-- C4 amended. Every list-endpoint network failure is caught at its call site
and converted to an empty-results value — the functions below are total, so no
exception propagates — but the exact value differs by component:
`{ results: [], count: 0, next: null, previous: null }` in `MappingDetailsPage.js`
(`fetchPaginatedData`), `{ results: [], count: 0 }` in `SystemResultsPage.jsx`,
the bare `[]` in the system page's `handleSearch`, and the count-less
`{ results: [] }` in `SearchPage.js`'s `performSearch` slots. -/
theorem list_failure_value_amended (e : String) :
    fetchPaginatedData (α := Term) (.error e)
      = { results := [], count := 0, next := none, previous := none } ∧
    srpFetchedData (.error e) = emptyCountedResp ∧
    systemPageSearchResults (.error e) = [] ∧
    (∀ term net prev, jsTrim term ≠ "" → SearchNet.combined net = .error e →
      (performSearch term net prev).map SearchResults.combined = some bareEmptyResp) := by
  refine ⟨rfl, rfl, rfl, ?_⟩
  intro term net prev hterm hc
  rw [performSearch, if_neg hterm, hc]
  rfl

/-- Witness for `list_failure_value_amended` at a concrete failure and a
concrete search run. -/
theorem list_failure_value_amended_witness :
    fetchPaginatedData (α := Term) (.error "network error")
      = { results := [], count := 0, next := none, previous := none } ∧
    (performSearch "fever" combinedFailNet none).map SearchResults.combined
      = some bareEmptyResp := by
  exact ⟨(list_failure_value_amended "network error").1,
    (list_failure_value_amended "network error").2.2.2 "fever" combinedFailNet none
      (by decide) rfl⟩

/-! ## Page-number windows

Three components render page buttons: `MappingDetailsPage.js` `renderPagination`,
the system page's results pagination, and `SystemResultsPage.jsx`'s pagination. -/

/-- From `MappingDetailsPage.js` `renderPagination`:
`let startPage = Math.max(1, currentPage - Math.floor(maxVisiblePages / 2))`
with `maxVisiblePages = 5`. -/
def mdpStartPage0 (currentPage : Nat) : Nat :=
  max 1 (currentPage - 5 / 2)

/-- From `MappingDetailsPage.js` `renderPagination`:
`let endPage = Math.min(totalPages, startPage + maxVisiblePages - 1)`. -/
def mdpEndPage (totalPages currentPage : Nat) : Nat :=
  min totalPages (mdpStartPage0 currentPage + 5 - 1)

/-- From `MappingDetailsPage.js` `renderPagination`:
`if (endPage - startPage + 1 < maxVisiblePages) startPage = Math.max(1, endPage - maxVisiblePages + 1)`. -/
def mdpStartPage (totalPages currentPage : Nat) : Nat :=
  if mdpEndPage totalPages currentPage - mdpStartPage0 currentPage + 1 < 5 then
    max 1 (mdpEndPage totalPages currentPage - 5 + 1)
  else mdpStartPage0 currentPage

/-- The page buttons rendered by `MappingDetailsPage.js` `renderPagination`
(`if (totalPages <= 1) return null`, then `for (let i = startPage; i <= endPage; i++)`). -/
def mdpPageNumbers (totalPages currentPage : Nat) : List Nat :=
  if totalPages ≤ 1 then []
  else List.range' (mdpStartPage totalPages currentPage)
    (mdpEndPage totalPages currentPage - mdpStartPage totalPages currentPage + 1)

/-- From the system page's results pagination: the page number shown at button
index `i` (`Array.from({ length: Math.min(5, totalPages) }, (_, i) => ...)`). -/
def systemPagePageNum (totalPages currentPage i : Nat) : Nat :=
  if totalPages ≤ 5 then i + 1
  else if currentPage ≤ 3 then i + 1
  else if totalPages - 2 ≤ currentPage then totalPages - 4 + i
  else currentPage - 2 + i

/-- The page buttons rendered by the system page (`totalPages > 1 && ...`). -/
def systemPagePageNumbers (totalPages currentPage : Nat) : List Nat :=
  if totalPages ≤ 1 then []
  else (List.range (min 5 totalPages)).map (systemPagePageNum totalPages currentPage)

/-- The page buttons rendered by `SystemResultsPage.jsx`
(`totalPages > 1 && Array.from({length: totalPages}, (_, i) => i + 1).slice(Math.max(0, currentPage - 3), currentPage + 2)`). -/
def srpPageNumbers (totalPages currentPage : Nat) : List Nat :=
  if totalPages ≤ 1 then []
  else ((List.range' 1 totalPages).drop (max 0 (currentPage - 3))).take
    ((currentPage + 2) - max 0 (currentPage - 3))

/-- Taking a prefix of `List.range' s n` (step 1) is again a `range'`. -/
theorem range'_take_eq (s n m : Nat) :
    (List.range' s n).take m = List.range' s (min m n) := by
  induction n generalizing s m with
  | zero => simp
  | succ k ih =>
    cases m with
    | zero => simp
    | succ m' =>
      rw [List.range'_succ, List.take_succ_cons, ih, Nat.succ_min_succ, List.range'_succ]

/-- Dropping a prefix of `List.range' s n` (step 1) is again a `range'`. -/
theorem range'_drop_eq (s n m : Nat) :
    (List.range' s n).drop m = List.range' (s + m) (n - m) := by
  induction n generalizing s m with
  | zero => simp
  | succ k ih =>
    cases m with
    | zero => simp
    | succ m' =>
      rw [List.range'_succ, List.drop_succ_cons, ih]
      congr 1 <;> omega

/-- C5 counterexample. With 10 total pages and the current page 1,
`SystemResultsPage.jsx` renders only the 3 buttons `[1, 2, 3]`, not a window of
exactly 5 — the claimed fixed-size window fails for that component. -/
theorem srp_window_not_five_counterexample :
    srpPageNumbers 10 1 = [1, 2, 3] ∧
    (srpPageNumbers 10 1).length ≠ 5 ∧ ¬(10 : Nat) < 5 := by
  decide

/-- C5 amended. For every page count `≥ 2` and current page in range:
`MappingDetailsPage.js` and the system page render exactly `min 5 totalPages`
buttons, all within the valid range and containing the current page;
`SystemResultsPage.jsx` instead renders exactly the pages from
`max 1 (currentPage - 2)` through `min totalPages (currentPage + 2)` — also
within range and containing the current page, but only 3 or 4 buttons when the
current page is within 2 of either end (and at least 5 pages exist). -/
theorem pagination_window_amended (total cur : Nat)
    (h2 : 2 ≤ total) (hc1 : 1 ≤ cur) (hc2 : cur ≤ total) :
    ((mdpPageNumbers total cur).length = min 5 total ∧
      (∀ p ∈ mdpPageNumbers total cur, 1 ≤ p ∧ p ≤ total) ∧
      cur ∈ mdpPageNumbers total cur) ∧
    ((systemPagePageNumbers total cur).length = min 5 total ∧
      (∀ p ∈ systemPagePageNumbers total cur, 1 ≤ p ∧ p ≤ total) ∧
      cur ∈ systemPagePageNumbers total cur) ∧
    (srpPageNumbers total cur
        = List.range' (max 1 (cur - 2)) (min total (cur + 2) + 1 - max 1 (cur - 2)) ∧
      (∀ p ∈ srpPageNumbers total cur, 1 ≤ p ∧ p ≤ total) ∧
      cur ∈ srpPageNumbers total cur) := by
  have hne : ¬ total ≤ 1 := by omega
  have harith : mdpStartPage total cur ≤ cur ∧ cur ≤ mdpEndPage total cur ∧
      1 ≤ mdpStartPage total cur ∧ mdpEndPage total cur ≤ total ∧
      mdpEndPage total cur - mdpStartPage total cur + 1 = min 5 total := by
    unfold mdpStartPage mdpEndPage mdpStartPage0
    split_ifs with h <;> omega
  obtain ⟨hsc, hce, hs1, het, hlen⟩ := harith
  have hsrp : srpPageNumbers total cur
      = List.range' (max 1 (cur - 2)) (min total (cur + 2) + 1 - max 1 (cur - 2)) := by
    rw [srpPageNumbers, if_neg hne, range'_drop_eq, range'_take_eq]
    congr 1 <;> omega
  refine ⟨⟨?_, ?_, ?_⟩, ⟨?_, ?_, ?_⟩, hsrp, ?_, ?_⟩
  · rw [mdpPageNumbers, if_neg hne, List.length_range']
    exact hlen
  · intro p hp
    rw [mdpPageNumbers, if_neg hne, List.mem_range'_1] at hp
    omega
  · rw [mdpPageNumbers, if_neg hne, List.mem_range'_1]
    omega
  · rw [systemPagePageNumbers, if_neg hne, List.length_map, List.length_range]
  · intro p hp
    rw [systemPagePageNumbers, if_neg hne, List.mem_map] at hp
    obtain ⟨i, hi, hfi⟩ := hp
    rw [List.mem_range] at hi
    rw [systemPagePageNum] at hfi
    split_ifs at hfi <;> omega
  · rw [systemPagePageNumbers, if_neg hne, List.mem_map]
    refine ⟨if total ≤ 5 then cur - 1 else if cur ≤ 3 then cur - 1
      else if total - 2 ≤ cur then cur + 4 - total else 2, ?_, ?_⟩
    · rw [List.mem_range]
      split_ifs <;> omega
    · rw [systemPagePageNum]
      split_ifs <;> omega
  · intro p hp
    rw [hsrp, List.mem_range'_1] at hp
    omega
  · rw [hsrp, List.mem_range'_1]
    omega

/-- Witness for `pagination_window_amended` at 10 pages, current page 6. -/
theorem pagination_window_amended_witness :
    ((mdpPageNumbers 10 6).length = min 5 10 ∧
      (∀ p ∈ mdpPageNumbers 10 6, 1 ≤ p ∧ p ≤ 10) ∧
      6 ∈ mdpPageNumbers 10 6) ∧
    ((systemPagePageNumbers 10 6).length = min 5 10 ∧
      (∀ p ∈ systemPagePageNumbers 10 6, 1 ≤ p ∧ p ≤ 10) ∧
      6 ∈ systemPagePageNumbers 10 6) ∧
    (srpPageNumbers 10 6
        = List.range' (max 1 (6 - 2)) (min 10 (6 + 2) + 1 - max 1 (6 - 2)) ∧
      (∀ p ∈ srpPageNumbers 10 6, 1 ≤ p ∧ p ≤ 10) ∧
      6 ∈ srpPageNumbers 10 6) := by
  exact pagination_window_amended 10 6 (by decide) (by decide) (by decide)

/-! ## Upload gate (system page) -/

/-- The authenticated user object as read from the auth service. -/
structure User where
  displayName : Option String
  email : Option String
  deriving Repr, DecidableEq

/-- From the system page:
`const isAdmin = currentUser?.displayName === 'root' && currentUser?.email === 'root@gmail.com'`. -/
def isAdmin (currentUser : Option User) : Bool :=
  match currentUser with
  | none => false
  | some u => u.displayName == some "root" && u.email == some "root@gmail.com"

/-- From the system page: `const isLoggedIn = !!currentUser`. -/
def isLoggedIn (currentUser : Option User) : Bool :=
  currentUser.isSome

/-- From the system page `getUploadIconClass` (`userChecked`/`uploading` are the
component's auth-probe and in-flight-upload flags). -/
def getUploadIconClass (userChecked uploading : Bool) (currentUser : Option User) : String :=
  if !userChecked || uploading then "upload-icon checking"
  else if !isLoggedIn currentUser || !isAdmin currentUser then "upload-icon disabled"
  else "upload-icon"

/-- From the system page `getUploadIconTitle`. -/
def getUploadIconTitle (userChecked : Bool) (currentUser : Option User) : String :=
  if !userChecked then "Checking authentication..."
  else if !isLoggedIn currentUser then "Please log in to upload files"
  else if !isAdmin currentUser then "Only admin can upload files"
  else "Upload CSV to update database"

/-- C6. In the steady state (auth status resolved, no upload in flight), the CSV
upload control carries the enabled class `upload-icon` exactly when the current
user's display name is `root` and email is `root@gmail.com`; every other user,
authenticated or anonymous, gets the `upload-icon disabled` class together with
an explanatory tooltip. -/
theorem upload_gate_root_only (currentUser : Option User) :
    (getUploadIconClass true false currentUser = "upload-icon" ↔
      ∃ u, currentUser = some u ∧ u.displayName = some "root"
        ∧ u.email = some "root@gmail.com") ∧
    ((¬ ∃ u, currentUser = some u ∧ u.displayName = some "root"
        ∧ u.email = some "root@gmail.com") →
      getUploadIconClass true false currentUser = "upload-icon disabled" ∧
      (getUploadIconTitle true currentUser = "Please log in to upload files" ∨
        getUploadIconTitle true currentUser = "Only admin can upload files")) := by
  match currentUser with
  | none =>
    refine ⟨?_, ?_⟩
    · constructor
      · intro h
        exact absurd h (by decide)
      · rintro ⟨u, hu, -, -⟩
        exact absurd hu (by simp)
    · intro _
      exact ⟨by decide, Or.inl (by decide)⟩
  | some u =>
    by_cases hname : u.displayName = some "root"
    · by_cases hemail : u.email = some "root@gmail.com"
      · refine ⟨?_, ?_⟩
        · constructor
          · intro _
            exact ⟨u, rfl, hname, hemail⟩
          · intro _
            simp [getUploadIconClass, isLoggedIn, isAdmin, hname, hemail]
        · intro hno
          exact absurd ⟨u, rfl, hname, hemail⟩ hno
      · have hclass : getUploadIconClass true false (some u) = "upload-icon disabled" := by
          simp [getUploadIconClass, isLoggedIn, isAdmin, hemail]
        refine ⟨?_, ?_⟩
        · rw [hclass]
          constructor
          · intro h
            exact absurd h (by decide)
          · rintro ⟨v, hv, -, hve⟩
            rw [Option.some_inj] at hv
            subst hv
            exact absurd hve hemail
        · intro _
          refine ⟨hclass, Or.inr ?_⟩
          simp [getUploadIconTitle, isLoggedIn, isAdmin, hemail]
    · have hclass : getUploadIconClass true false (some u) = "upload-icon disabled" := by
        simp [getUploadIconClass, isLoggedIn, isAdmin, hname]
      refine ⟨?_, ?_⟩
      · rw [hclass]
        constructor
        · intro h
          exact absurd h (by decide)
        · rintro ⟨v, hv, hvn, -⟩
          rw [Option.some_inj] at hv
          subst hv
          exact absurd hvn hname
      · intro _
        refine ⟨hclass, Or.inr ?_⟩
        simp [getUploadIconTitle, isLoggedIn, isAdmin, hname]

/-- Witness for `upload_gate_root_only`: the hardcoded admin identity gets the
enabled class, a different authenticated user gets the disabled class. -/
theorem upload_gate_root_only_witness :
    getUploadIconClass true false
      (some { displayName := some "root", email := some "root@gmail.com" }) = "upload-icon" ∧
    getUploadIconClass true false
      (some { displayName := some "alice", email := some "alice@gmail.com" })
      = "upload-icon disabled" := by
  refine ⟨?_, ?_⟩
  · exact (upload_gate_root_only
      (some { displayName := some "root", email := some "root@gmail.com" })).1.2
      ⟨_, rfl, rfl, rfl⟩
  · refine ((upload_gate_root_only
      (some { displayName := some "alice", email := some "alice@gmail.com" })).2 ?_).1
    rintro ⟨u, hu, hn, -⟩
    rw [Option.some_inj] at hu
    subst hu
    exact absurd hn (by decide)

/-! ## Suggestion fetchers (`SearchPage.js` `fetchSuggestions`, system page
`fetchAllSuggestions`) -/

/-- A suggestion object built by `SearchPage.js` `fetchSuggestions` from one
combined-search item. -/
structure Suggestion where
  name : Option String
  type : String
  confidence : ℚ
  id : Option String
  system : String
  definition : Option String
  deriving Repr, DecidableEq

/-- From `SearchPage.js` `fetchSuggestions`:
`{ name: item.title, type: 'combined', confidence: item.search_score || 0.8, id: item.id, system: 'icd11', definition: item.definition }`. -/
def suggestionOfItem (item : CombinedItem) : Suggestion where
  name := item.title
  type := "combined"
  confidence := jsOrNum item.search_score (4 / 5)
  id := item.id
  system := "icd11"
  definition := item.definition

/-- The suggestion-related state of `SearchPage.js`. -/
structure SuggState where
  suggestions : List Suggestion
  recommendations : List Suggestion
  deriving Repr, DecidableEq

/-- From `SearchPage.js` `fetchSuggestions`.  The first component lists the URLs
of the network requests the call issues (a ghost observation); the second is the
resulting suggestion state.  Guard: `if (!term || term.length < 2) { setSuggestions([]); setRecommendations([]); return; }`.
On a successful response the results are mapped and `recommendations` takes the
first 3 (`allSuggestions.slice(0, 3)`); when `fetchData` returns `null` (network
failure) the `if (data && data.results)` test fails and the state is left as it
was — the `catch` block never runs because `fetchData` never throws. -/
def fetchSuggestionsSP (term : String) (net : Net (ListResp CombinedItem))
    (prev : SuggState) : List String × SuggState :=
  if term = "" || term.length < 2 then
    ([], { suggestions := [], recommendations := [] })
  else
    let url := "/terminologies/search/combined/?q=" ++ term
      ++ "&fuzzy=true&threshold=0.4&page_size=8"
    match fetchData net with
    | some data =>
        let allSuggestions := data.results.map suggestionOfItem
        ([url], { suggestions := allSuggestions
                  recommendations := allSuggestions.take 3 })
    | none => ([url], prev)

/-- The suggestion-related state of the system page. -/
structure SystemSuggState where
  allSuggestions : List String
  suggestions : List String
  suggTotal : Nat
  suggTotalPages : Nat
  deriving Repr, DecidableEq

/-- From the system page `fetchAllSuggestions` (autocomplete results are plain
strings; both accepted response shapes normalize to the string list, and a
failed fetch yields `null`, hence `allData = []`).  The displayed page is
`updateDisplayedSuggestions(allData, 1)`, i.e. `allData.slice(0, 10)` with
`suggPerPage = 10`; `suggTotalPages = Math.ceil(allData.length / 10)`. -/
def fetchAllSuggestionsSys (term : String) (net : Net (List String)) :
    List String × SystemSuggState :=
  if term = "" || term.length < 2 then
    ([], { allSuggestions := [], suggestions := [], suggTotal := 0, suggTotalPages := 1 })
  else
    let url := "autocomplete/?q=" ++ term ++ "&limit=1000"
    let allData := (fetchData net).getD []
    ([url], { allSuggestions := allData
              suggestions := allData.take 10
              suggTotal := allData.length
              suggTotalPages := (allData.length + 10 - 1) / 10 })

/-- C8. For every input shorter than 2 characters, neither suggestion fetcher
issues a network request, and both clear their suggestion state. -/
theorem short_input_issues_no_request (term : String)
    (net₁ : Net (ListResp CombinedItem)) (net₂ : Net (List String))
    (prev : SuggState) (h : term.length < 2) :
    (fetchSuggestionsSP term net₁ prev).1 = [] ∧
    (fetchSuggestionsSP term net₁ prev).2
      = { suggestions := [], recommendations := [] } ∧
    (fetchAllSuggestionsSys term net₂).1 = [] ∧
    (fetchAllSuggestionsSys term net₂).2
      = { allSuggestions := [], suggestions := [], suggTotal := 0, suggTotalPages := 1 } := by
  have hshort : (term = "" || term.length < 2) = true := by
    simp [h]
  rw [fetchSuggestionsSP, fetchAllSuggestionsSys, if_pos hshort, if_pos hshort]
  exact ⟨rfl, rfl, rfl, rfl⟩

/-- Witness for `short_input_issues_no_request` on the 1-character input `"a"`,
with both endpoints healthy and a non-empty previous suggestion list. -/
theorem short_input_issues_no_request_witness :
    ("a".length < 2) ∧
    (fetchSuggestionsSP "a"
        (.ok { results := [sampleCombinedItem], count := some 1, next := none, previous := none })
        { suggestions := [suggestionOfItem sampleCombinedItem], recommendations := [] }).1 = [] ∧
    (fetchAllSuggestionsSys "a" (.ok ["abdominal pain"])).1 = [] := by
  have h : "a".length < 2 := by decide
  have := short_input_issues_no_request "a"
    (.ok { results := [sampleCombinedItem], count := some 1, next := none, previous := none })
    (.ok ["abdominal pain"])
    { suggestions := [suggestionOfItem sampleCombinedItem], recommendations := [] } h
  exact ⟨h, this.1, this.2.2.1⟩

/-- C10 counterexample. In `SearchPage.js`, a failed suggestion fetch does not
clear the displayed list: `fetchData` returns `null`, the `data && data.results`
test fails, and the previously displayed suggestions survive untouched. -/
theorem failed_suggestions_not_cleared_counterexample :
    (fetchSuggestionsSP "fe" (.error "network error")
        { suggestions := [suggestionOfItem sampleCombinedItem], recommendations := [] }).2.suggestions
      = [suggestionOfItem sampleCombinedItem] ∧
    [suggestionOfItem sampleCombinedItem] ≠ ([] : List Suggestion) := by
  refine ⟨rfl, ?_⟩
  decide

/-- C10 amended. A failed suggestion fetch is never surfaced as an error: both
fetchers return normally (they are total functions with no error state).  The
system page's fetcher clears its entire suggestion state, but `SearchPage.js`'s
fetcher leaves the previously displayed suggestions and recommendations
unchanged rather than clearing them. -/
theorem failed_suggestions_handling_amended (term e : String) (prev : SuggState)
    (h : 2 ≤ term.length) :
    (fetchSuggestionsSP term (.error e) prev).2 = prev ∧
    (fetchAllSuggestionsSys term (.error e)).2
      = { allSuggestions := [], suggestions := [], suggTotal := 0, suggTotalPages := 0 } := by
  have hne : ¬ term = "" := by
    intro h0
    rw [h0] at h
    exact absurd h (by decide)
  have hlt : ¬ term.length < 2 := by omega
  constructor <;> simp [fetchSuggestionsSP, fetchAllSuggestionsSys, fetchData, hne, hlt]

/-- Witness for `failed_suggestions_handling_amended` on the input `"fe"`. -/
theorem failed_suggestions_handling_amended_witness :
    (2 ≤ "fe".length) ∧
    (fetchSuggestionsSP "fe" (.error "network error")
        { suggestions := [suggestionOfItem sampleCombinedItem], recommendations := [] }).2
      = { suggestions := [suggestionOfItem sampleCombinedItem], recommendations := [] } ∧
    (fetchAllSuggestionsSys "fe" (.error "network error")).2
      = { allSuggestions := [], suggestions := [], suggTotal := 0, suggTotalPages := 0 } := by
  have h : 2 ≤ "fe".length := by decide
  have := failed_suggestions_handling_amended "fe" "network error"
    { suggestions := [suggestionOfItem sampleCombinedItem], recommendations := [] } h
  exact ⟨h, this.1, this.2⟩

/-! ## Bounded background page fetching
(`MappingDetailsPage.js` `fetchAllPagesForSystem`, called by `fetchAdditionalPages`
with the default `maxPages = 3` and `pageSize = 50`) -/

/-- What one iteration of the loop sees: the output of `fetchPaginatedData` for a
given server page, with `next` reduced to its truthiness (`hasMore = !!data.next`). -/
structure ServerPage (α : Type) where
  results : List α
  next : Bool
  deriving Repr, DecidableEq

/-- The loop of `fetchAllPagesForSystem`:
`while (hasMore && page <= maxPages) { const data = await fetchPaginatedData(...); if (data.results && data.results.length > 0) { allResults = [...allResults, ...data.results]; hasMore = !!data.next; page++; } else { hasMore = false; } }`.
The first argument is the remaining page budget `maxPages + 1 - page`, the
structurally decreasing measure that makes the loop terminate; the second
component of the result counts the server-page requests issued (a ghost
observation). -/
def fetchAllPagesLoop (net : Nat → ServerPage α) : Nat → Nat → List α → List α × Nat
  | 0, _, acc => (acc, 0)
  | rem + 1, page, acc =>
    let data := net page
    if data.results.length > 0 then
      if data.next then
        let r := fetchAllPagesLoop net rem (page + 1) (acc ++ data.results)
        (r.1, r.2 + 1)
      else (acc ++ data.results, 1)
    else (acc, 1)

/-- The value returned by `fetchAllPagesForSystem`
(`{ results: allResults, count: allResults.length }`) plus the ghost request count. -/
structure AllPagesResult (α : Type) where
  results : List α
  count : Nat
  requests : Nat
  deriving Repr, DecidableEq

/-- From `MappingDetailsPage.js` `fetchAllPagesForSystem` (`maxPages = 3` by
default; `page` starts at 1, `allResults` at `[]`). -/
def fetchAllPagesForSystem (net : Nat → ServerPage α) (maxPages : Nat := 3) :
    AllPagesResult α :=
  let r := fetchAllPagesLoop net maxPages 1 []
  { results := r.1, count := r.1.length, requests := r.2 }

/-- The loop issues at most `rem` requests and appends at most `rem * pageSize`
items to its accumulator, whenever every server page holds at most `pageSize` items. -/
theorem fetchAllPagesLoop_bounds (net : Nat → ServerPage α) (pageSize : Nat)
    (h : ∀ p, (net p).results.length ≤ pageSize) :
    ∀ rem page acc, (fetchAllPagesLoop net rem page acc).2 ≤ rem ∧
      (fetchAllPagesLoop net rem page acc).1.length ≤ acc.length + rem * pageSize := by
  intro rem
  induction rem with
  | zero =>
    intro page acc
    exact ⟨Nat.le_refl 0, by simp [fetchAllPagesLoop]⟩
  | succ k ih =>
    intro page acc
    rw [fetchAllPagesLoop]
    split_ifs with h1 h2
    · obtain ⟨ihreq, ihlen⟩ := ih (page + 1) (acc ++ (net page).results)
      refine ⟨?_, ?_⟩
      · show (fetchAllPagesLoop net k (page + 1) (acc ++ (net page).results)).2 + 1 ≤ k + 1
        omega
      · show (fetchAllPagesLoop net k (page + 1) (acc ++ (net page).results)).1.length
          ≤ acc.length + (k + 1) * pageSize
        calc (fetchAllPagesLoop net k (page + 1) (acc ++ (net page).results)).1.length
            ≤ (acc ++ (net page).results).length + k * pageSize := ihlen
          _ = acc.length + (net page).results.length + k * pageSize := by
              rw [List.length_append]
          _ ≤ acc.length + pageSize + k * pageSize := by
              have := h page
              omega
          _ = acc.length + (k + 1) * pageSize := by ring
    · refine ⟨by omega, ?_⟩
      show (acc ++ (net page).results).length ≤ acc.length + (k + 1) * pageSize
      rw [List.length_append]
      have := h page
      have hk : pageSize ≤ (k + 1) * pageSize := by
        calc pageSize = 1 * pageSize := (one_mul _).symm
          _ ≤ (k + 1) * pageSize := Nat.mul_le_mul_right _ (by omega)
      omega
    · refine ⟨by omega, ?_⟩
      show acc.length ≤ acc.length + (k + 1) * pageSize
      omega

/-- C9. For every network behaviour in which each server page carries at most
the requested `pageSize = 50` items, `fetchAllPagesForSystem` (as invoked by
`fetchAdditionalPages`, i.e. with the default `maxPages = 3`) issues at most 3
server-page requests and returns at most `3 * 50 = 150` results — regardless of
how many further pages the server advertises via `next`.  (The loop itself is a
total structurally-recursive function on the remaining page budget, which is
the termination argument.) -/
theorem background_fetch_bounded (net : Nat → ServerPage α)
    (h : ∀ p, (net p).results.length ≤ 50) :
    (fetchAllPagesForSystem net 3).requests ≤ 3 ∧
    (fetchAllPagesForSystem net 3).results.length ≤ 3 * 50 := by
  have hb := fetchAllPagesLoop_bounds net 50 h 3 1 []
  exact ⟨hb.1, by simpa using hb.2⟩

/-- A server that always reports another page via `next`, each page holding one item. -/
def endlessNet : Nat → ServerPage Nat := fun p => { results := [p], next := true }

/-- Witness for `background_fetch_bounded`: against a server that always
advertises more pages, exactly 3 requests are made and 3 results collected. -/
theorem background_fetch_bounded_witness :
    (∀ p, (endlessNet p).results.length ≤ 50) ∧
    (fetchAllPagesForSystem endlessNet 3).requests ≤ 3 ∧
    (fetchAllPagesForSystem endlessNet 3).results.length ≤ 3 * 50 := by
  have h : ∀ p, (endlessNet p).results.length ≤ 50 := fun p => by
    simp [endlessNet]
  exact ⟨h, background_fetch_bounded endlessNet h⟩

end SIH
